import Mathlib

/-!
Verification of the base-deployment-controller design against its source.

The deployment-status pipeline lives in
`src/base_deployment_controller/services/deployment_status_monitor.py`
(class `DeploymentStatusMonitor`); the HTTP handlers live in
`src/base_deployment_controller/routers/deployment.py` (class
`DeploymentRoutes`).  Enumerations (`ServiceState`, `DeploymentStatus`,
`TaskStatus`) are declared in `models/events.py`, `models/deployment.py`
and `models/task.py`, which are not among the provided sources; their
member lists are taken from the design document's data model, and the
members referenced by the monitor source confirm them.

Machine integers play no role here; container state tables are modelled
as functions `String → Option ServiceState` (the Python `dict.get`),
and the asynchronous monitor loop as an explicit step function on a
state record, applied to one incoming container event at a time.
-/

namespace BDC

/-- Container lifecycle states (`ServiceState` enum; member list from the
design's data model, members used by `deployment_status_monitor.py`). -/
inductive ServiceState
  | NotStarted
  | Pulling
  | Pulled
  | Creating
  | Starting
  | Started
  | Stopping
  | Stopped
  | Removing
  | Removed
  | Error
deriving DecidableEq, Repr

/-- Aggregate deployment status (`DeploymentStatus` enum). -/
inductive DeploymentStatus
  | Unknown
  | Running
  | PartRunning
  | Stopped
deriving DecidableEq, Repr

/-- Per-container classification performed by the `for` loop of
`_compute_deployment_status` (deployment_status_monitor.py lines 157-170).
The Python `elif` chain is mirrored branch by branch: `Removed` is caught
by the stopped branch before the transitional tuple mentioning it, and the
final `else` (reached by `Error` and any other state, e.g. `Removing`)
counts as unknown, as does an absent entry (`states.get` returning `None`). -/
inductive StateClass
  | startedC
  | stoppedC
  | transitionalC
  | unknownC
deriving DecidableEq, Repr

/-- Classification of one container's recorded state, following the
branch order of `_compute_deployment_status`. -/
def classify : Option ServiceState → StateClass
  | some .Started => .startedC
  | some .Starting => .startedC
  | some .Stopped => .stoppedC
  | some .Removed => .stoppedC
  | some .NotStarted => .stoppedC
  | some .Creating => .transitionalC
  | some .Stopping => .transitionalC
  | some .Pulling => .transitionalC
  | some .Pulled => .transitionalC
  | none => .unknownC
  | some _ => .unknownC

/-- Embedding of `DeploymentStatusMonitor._compute_deployment_status`
(lines 146-178): counts started / stopped / unknown containers among the
relevant set and decides Running / Stopped / Unknown / PartiallyRunning.
The `transitional` counter of the source is computed but, exactly as in
the source, takes no part in the decision. -/
def computeDeploymentStatus (relevant : List String)
    (states : String → Option ServiceState) : DeploymentStatus :=
  if relevant.isEmpty then .Unknown
  else
    let total := relevant.length
    let started := relevant.countP (fun n => classify (states n) == .startedC)
    let stopped := relevant.countP (fun n => classify (states n) == .stoppedC)
    let unknown := relevant.countP (fun n => classify (states n) == .unknownC)
    if started == total then .Running
    else if stopped == total then .Stopped
    else if started == 0 && stopped == 0 && unknown == total then .Unknown
    else .PartRunning

/-- The aggregation rule exactly as the design document words it:
started = Started or Starting; stopped = Stopped, Removed or NotStarted;
unknown = no recorded state or an Error/other state (hence every state
that is neither started nor stopped, the transitional ones included). -/
def specAggregate (relevant : List String)
    (states : String → Option ServiceState) : DeploymentStatus :=
  if relevant.isEmpty then .Unknown
  else
    let total := relevant.length
    let started := relevant.countP (fun n =>
      states n == some .Started || states n == some .Starting)
    let stopped := relevant.countP (fun n =>
      states n == some .Stopped || states n == some .Removed ||
        states n == some .NotStarted)
    let unknown := relevant.countP (fun n =>
      !(states n == some .Started || states n == some .Starting) &&
      !(states n == some .Stopped || states n == some .Removed ||
        states n == some .NotStarted))
    if started == total then .Running
    else if stopped == total then .Stopped
    else if started == 0 && stopped == 0 && unknown == total then .Unknown
    else .PartRunning

/-- The aggregation rule amended to match the per-container classification
the source actually uses: containers in a transitional state (Creating,
Stopping, Pulling, Pulled) count toward none of started / stopped /
unknown; unknown counts only containers with no recorded state or an
Error / Removing / other unrecognised state. -/
def specAggregateAmended (relevant : List String)
    (states : String → Option ServiceState) : DeploymentStatus :=
  if relevant.isEmpty then .Unknown
  else
    let total := relevant.length
    let started := relevant.countP (fun n =>
      states n == some .Started || states n == some .Starting)
    let stopped := relevant.countP (fun n =>
      states n == some .Stopped || states n == some .Removed ||
        states n == some .NotStarted)
    let unknown := relevant.countP (fun n =>
      !(states n == some .Started || states n == some .Starting) &&
      !(states n == some .Stopped || states n == some .Removed ||
        states n == some .NotStarted) &&
      !(states n == some .Creating || states n == some .Stopping ||
        states n == some .Pulling || states n == some .Pulled))
    if started == total then .Running
    else if stopped == total then .Stopped
    else if started == 0 && stopped == 0 && unknown == total then .Unknown
    else .PartRunning

/-- Raw container lifecycle event, as delivered to the monitor loop
(fields `container_name` and `state` of `ContainerStatusEvent`; the
remaining fields — previous state, action, timestamp — are never read by
the loop). -/
structure ContainerEvent where
  containerName : String
  state : ServiceState
deriving DecidableEq, Repr

/-- Deployment status notification (`DeploymentStatusEvent`), minus the
wall-clock timestamp the source attaches, which no claim concerns. -/
structure DeploymentStatusEvent where
  status : DeploymentStatus
  previousStatus : Option DeploymentStatus
deriving DecidableEq, Repr

/-- Mutable state of the monitor that the loop body touches:
`_container_states` and `_last_status`. -/
structure MonitorState where
  containerStates : String → Option ServiceState
  lastStatus : Option DeploymentStatus

/-- Pointwise update of the state table: `self._container_states[name] = state`. -/
def updateState (states : String → Option ServiceState) (name : String)
    (s : ServiceState) : String → Option ServiceState :=
  fun n => if n = name then some s else states n

/-- One pass of the monitor loop body over one event
(`_monitor_loop`, lines 226-252): an event for a container outside the
relevant set is ignored; otherwise the table is updated, the aggregate
recomputed, and a notification is produced exactly when the new aggregate
differs from `_last_status` (the Python `==` against the `Optional`
previous value holds only when that value is the same non-`None` status). -/
def stepMonitor (relevant : List String) (ms : MonitorState)
    (e : ContainerEvent) : MonitorState × Option DeploymentStatusEvent :=
  if e.containerName ∈ relevant then
    let states2 := updateState ms.containerStates e.containerName e.state
    let current := computeDeploymentStatus relevant states2
    if some current = ms.lastStatus then (⟨states2, ms.lastStatus⟩, none)
    else (⟨states2, some current⟩, some ⟨current, ms.lastStatus⟩)
  else (ms, none)

/-- Iterated monitor loop over a list of incoming events, collecting the
broadcast notifications in order. -/
def runMonitor (relevant : List String) (ms : MonitorState) :
    List ContainerEvent → MonitorState × List DeploymentStatusEvent
  | [] => (ms, [])
  | e :: es =>
    let step := stepMonitor relevant ms e
    let rest := runMonitor relevant step.1 es
    (rest.1, step.2.toList ++ rest.2)

/-- Checks that a notification list, starting from a tracked status
`prev`, forms a gap-free chain: each notification records `prev` as its
previous status, carries a status different from `prev`, and hands its
own status on as the next `prev`. -/
def chainFromB (prev : Option DeploymentStatus) :
    List DeploymentStatusEvent → Bool
  | [] => true
  | ev :: rest =>
    ev.previousStatus == prev && some ev.status != prev &&
      chainFromB (some ev.status) rest

/-- Tracked-status trace: the value of `_last_status` after each
processed event. -/
def trackedTrace (relevant : List String) (ms : MonitorState) :
    List ContainerEvent → List (Option DeploymentStatus)
  | [] => []
  | e :: es =>
    let ms2 := (stepMonitor relevant ms e).1
    ms2.lastStatus :: trackedTrace relevant ms2 es

/-- Number of distinct consecutive changes along a status trace. -/
def countChangesFrom (prev : Option DeploymentStatus) :
    List (Option DeploymentStatus) → Nat
  | [] => 0
  | s :: rest => (if s = prev then 0 else 1) + countChangesFrom s rest

lemma classify_eq_startedC (s : Option ServiceState) :
    (classify s == StateClass.startedC) =
      (s == some .Started || s == some .Starting) := by
  rcases s with _ | st
  · rfl
  · cases st <;> rfl

lemma classify_eq_stoppedC (s : Option ServiceState) :
    (classify s == StateClass.stoppedC) =
      (s == some .Stopped || s == some .Removed || s == some .NotStarted) := by
  rcases s with _ | st
  · rfl
  · cases st <;> rfl

lemma classify_eq_unknownC (s : Option ServiceState) :
    (classify s == StateClass.unknownC) =
      (!(s == some .Started || s == some .Starting) &&
       !(s == some .Stopped || s == some .Removed || s == some .NotStarted) &&
       !(s == some .Creating || s == some .Stopping || s == some .Pulling ||
         s == some .Pulled)) := by
  rcases s with _ | st
  · rfl
  · cases st <;> rfl

/-- C1: the design's aggregation rule, read literally (transitional
states land in the unknown bucket, being neither started nor stopped),
disagrees with `_compute_deployment_status` on a single relevant
container recorded as Stopping: the source answers PartiallyRunning,
the rule answers Unknown. -/
theorem aggregation_rule_counterexample :
    computeDeploymentStatus ["A"] (fun _ => some .Stopping) =
        .PartRunning ∧
      specAggregate ["A"] (fun _ => some .Stopping) = .Unknown ∧
      computeDeploymentStatus ["A"] (fun _ => some .Stopping) ≠
        specAggregate ["A"] (fun _ => some .Stopping) := by
  refine ⟨rfl, rfl, ?_⟩
  decide

/-- C1 (amended): for every container-state table and relevant set, the
aggregate equals the rule in which containers in a transitional state
(Creating, Stopping, Pulling, Pulled) count toward none of started /
stopped / unknown, and unknown counts only containers with no recorded
state or an Error / Removing / other unrecognised state; the empty
relevant set still always yields Unknown. -/
theorem aggregation_matches_amended_rule (relevant : List String)
    (states : String → Option ServiceState) :
    computeDeploymentStatus relevant states =
      specAggregateAmended relevant states := by
  simp only [computeDeploymentStatus, specAggregateAmended,
    classify_eq_startedC, classify_eq_stoppedC, classify_eq_unknownC]

lemma step_cases (relevant : List String) (ms : MonitorState)
    (e : ContainerEvent) :
    ((stepMonitor relevant ms e).2 = none ∧
      (stepMonitor relevant ms e).1.lastStatus = ms.lastStatus) ∨
    (∃ ev, (stepMonitor relevant ms e).2 = some ev ∧
      ev.previousStatus = ms.lastStatus ∧ some ev.status ≠ ms.lastStatus ∧
      (stepMonitor relevant ms e).1.lastStatus = some ev.status) := by
  unfold stepMonitor
  by_cases hm : e.containerName ∈ relevant
  · by_cases he : some (computeDeploymentStatus relevant
        (updateState ms.containerStates e.containerName e.state)) =
        ms.lastStatus
    · exact Or.inl (by simp [hm, he])
    · exact Or.inr ⟨⟨computeDeploymentStatus relevant
        (updateState ms.containerStates e.containerName e.state),
          ms.lastStatus⟩, by simp [hm, he], rfl, he, by simp [hm, he]⟩
  · exact Or.inl (by simp [hm])

lemma step_emits_iff (relevant : List String) (ms : MonitorState)
    (e : ContainerEvent) (hm : e.containerName ∈ relevant) :
    ((stepMonitor relevant ms e).2 ≠ none) ↔
      some (computeDeploymentStatus relevant
        (updateState ms.containerStates e.containerName e.state)) ≠
        ms.lastStatus := by
  unfold stepMonitor
  by_cases he : some (computeDeploymentStatus relevant
      (updateState ms.containerStates e.containerName e.state)) =
      ms.lastStatus <;> simp [hm, he]

lemma step_previous (relevant : List String) (ms : MonitorState)
    (e : ContainerEvent) (ev : DeploymentStatusEvent)
    (h : (stepMonitor relevant ms e).2 = some ev) :
    ev.previousStatus = ms.lastStatus ∧
      (stepMonitor relevant ms e).1.lastStatus = some ev.status := by
  rcases step_cases relevant ms e with ⟨h2, _⟩ | ⟨ev2, h2, hp, _, h1⟩
  · rw [h] at h2; cases h2
  · rw [h] at h2
    cases Option.some.inj h2
    exact ⟨hp, h1⟩

lemma runMonitor_chainFrom (relevant : List String) :
    ∀ (events : List ContainerEvent) (ms : MonitorState),
      chainFromB ms.lastStatus (runMonitor relevant ms events).2 = true
  | [], _ => rfl
  | e :: es, ms => by
    have ih := runMonitor_chainFrom relevant es (stepMonitor relevant ms e).1
    rcases step_cases relevant ms e with ⟨h2, h1⟩ | ⟨ev, h2, hp, hne, h1⟩
    · rw [h1] at ih
      simpa [runMonitor, h2] using ih
    · rw [h1] at ih
      simp [runMonitor, h2, chainFromB, hp, bne_iff_ne, hne, ih]

lemma runMonitor_length_changes (relevant : List String) :
    ∀ (events : List ContainerEvent) (ms : MonitorState),
      (runMonitor relevant ms events).2.length =
        countChangesFrom ms.lastStatus (trackedTrace relevant ms events)
  | [], _ => rfl
  | e :: es, ms => by
    have ih := runMonitor_length_changes relevant es (stepMonitor relevant ms e).1
    rcases step_cases relevant ms e with ⟨h2, h1⟩ | ⟨ev, h2, hp, hne, h1⟩
    · simp [runMonitor, trackedTrace, countChangesFrom, h2, h1, ih]
    · have hne2 : (stepMonitor relevant ms e).1.lastStatus ≠ ms.lastStatus := by
        rw [h1]; exact hne
      simp [runMonitor, trackedTrace, countChangesFrom, h2, hne2, ih,
        Nat.add_comm]

/-- C2: starting from any tracked status, a notification is produced by a
loop pass exactly when the recomputed aggregate differs from the tracked
status; each produced notification records the tracked status just before
the change as its previous status and installs its own status as the new
tracked one; over any event sequence confined to the relevant set the
emitted notifications form a gap-free chain with no consecutive duplicate
status, and their number equals the number of distinct consecutive
changes of the tracked status. -/
theorem monitor_change_detection (relevant : List String)
    (ms : MonitorState) (events : List ContainerEvent)
    (_h : ∀ e ∈ events, e.containerName ∈ relevant) :
    chainFromB ms.lastStatus (runMonitor relevant ms events).2 = true ∧
    (runMonitor relevant ms events).2.length =
      countChangesFrom ms.lastStatus (trackedTrace relevant ms events) ∧
    (∀ (ms2 : MonitorState) (e : ContainerEvent),
      e.containerName ∈ relevant →
      (((stepMonitor relevant ms2 e).2 ≠ none) ↔
        some (computeDeploymentStatus relevant
          (updateState ms2.containerStates e.containerName e.state)) ≠
          ms2.lastStatus)) ∧
    (∀ (ms2 : MonitorState) (e : ContainerEvent)
      (ev : DeploymentStatusEvent),
      (stepMonitor relevant ms2 e).2 = some ev →
        ev.previousStatus = ms2.lastStatus ∧
        (stepMonitor relevant ms2 e).1.lastStatus = some ev.status) := by
  refine ⟨runMonitor_chainFrom relevant events ms,
    runMonitor_length_changes relevant events ms,
    fun ms2 e hm => step_emits_iff relevant ms2 e hm,
    fun ms2 e ev hev => step_previous relevant ms2 e ev hev⟩

/-- C2 witness: the change-detection theorem applied to the one-container
deployment receiving a single Started event from a blank state. -/
theorem monitor_change_detection_witness :
    (∀ e ∈ ([⟨"A", ServiceState.Started⟩] : List ContainerEvent),
      e.containerName ∈ ["A"]) ∧
    chainFromB none
      (runMonitor ["A"] ⟨fun _ => none, none⟩
        [⟨"A", ServiceState.Started⟩]).2 = true :=
  ⟨by decide,
    (monitor_change_detection ["A"] ⟨fun _ => none, none⟩
      [⟨"A", ServiceState.Started⟩] (by decide)).1⟩

/-- Event sequence of the design document's walkthrough scenario for the
relevant set A, B. -/
def scenarioEvents : List ContainerEvent :=
  [⟨"A", .Started⟩, ⟨"B", .Started⟩, ⟨"A", .Stopping⟩,
   ⟨"B", .Stopping⟩, ⟨"A", .Stopped⟩, ⟨"B", .Stopped⟩]

/-- Initial state for the scenario: the inspection snapshot classifies
each relevant container as Started, Stopped, Removed or Error, so a
snapshot status of Unknown over the set A, B forces both containers to
be recorded as Error. -/
def scenarioInitial : MonitorState :=
  ⟨fun _ => some .Error, some .Unknown⟩

/-- C3: on the walkthrough scenario the loop emits four notifications,
not the three the claim states: from Unknown, the first single event
A → Started already moves the aggregate to PartiallyRunning before
B → Started reaches Running, since the loop processes events one at a
time. -/
theorem scenario_counterexample :
    computeDeploymentStatus ["A", "B"] scenarioInitial.containerStates =
        .Unknown ∧
      (runMonitor ["A", "B"] scenarioInitial scenarioEvents).2.length = 4 ∧
      (runMonitor ["A", "B"] scenarioInitial scenarioEvents).2.length ≠ 3 := by
  refine ⟨rfl, rfl, ?_⟩
  decide

/-- C3 (amended): the scenario emits exactly four notifications, whose
statuses and previous statuses chain
Unknown → PartiallyRunning → Running → PartiallyRunning → Stopped. -/
theorem scenario_amended :
    (runMonitor ["A", "B"] scenarioInitial scenarioEvents).2 =
      [⟨.PartRunning, some .Unknown⟩, ⟨.Running, some .PartRunning⟩,
       ⟨.PartRunning, some .Running⟩, ⟨.Stopped, some .PartRunning⟩] := by
  rfl

/-- One compose service: its name and the optional `container_name` key
(`service_config.get("container_name", service_name)` falls back to the
service name). -/
structure Service where
  name : String
  containerName : Option String
deriving DecidableEq, Repr

/-- Container name a service resolves to. -/
def resolvedName (svc : Service) : String :=
  svc.containerName.getD svc.name

/-- Relevant container set built by `__init__` (lines 55-58) from the
compose services. -/
def relevantOf (services : List Service) : List String :=
  services.map resolvedName

/-- Outcome of inspecting one container through the Docker client: the
inspection raised, the container does not exist, or it exists with a
live state that is or is not `running`. -/
inductive InspectResult
  | raises
  | absent
  | present (running : Bool)
deriving DecidableEq, Repr

/-- Per-container classification of `_refresh_snapshot._snapshot_sync`
(lines 118-130): a raised inspection gives Error, a missing container
Removed, a running one Started, anything else Stopped. -/
def snapshotClassify : InspectResult → ServiceState
  | .raises => .Error
  | .absent => .Removed
  | .present true => .Started
  | .present false => .Stopped

/-- Embedding of `_snapshot_sync`: builds the snapshot table over the
compose services (an empty service map yields the empty table, as the
early return does). -/
def snapshotSync (backend : String → InspectResult)
    (services : List Service) : String → Option ServiceState :=
  services.foldl
    (fun acc svc =>
      updateState acc (resolvedName svc)
        (snapshotClassify (backend (resolvedName svc))))
    (fun _ => none)

lemma snapshotSync_aux (backend : String → InspectResult) :
    ∀ (services : List Service) (acc : String → Option ServiceState)
      (c : String),
      (services.foldl
        (fun acc svc =>
          updateState acc (resolvedName svc)
            (snapshotClassify (backend (resolvedName svc)))) acc) c =
      if c ∈ relevantOf services then some (snapshotClassify (backend c))
      else acc c
  | [], _, c => by simp [relevantOf]
  | svc :: rest, acc, c => by
    rw [List.foldl_cons, snapshotSync_aux backend rest]
    by_cases hr : c ∈ relevantOf rest
    · have h1 : ∃ a ∈ rest, resolvedName a = c := by
        simpa [relevantOf] using hr
      simp [relevantOf, h1]
    · by_cases hc : c = resolvedName svc
      · subst hc
        have h1 : ¬ ∃ a ∈ rest, resolvedName a = resolvedName svc := by
          simpa [relevantOf] using hr
        simp [relevantOf, h1, updateState]
      · have h1 : ¬ ∃ a ∈ rest, resolvedName a = c := by
          simpa [relevantOf] using hr
        have h2 : ¬ resolvedName svc = c := fun hx => hc hx.symm
        simp [relevantOf, h1, h2, updateState, hc]

lemma snapshotSync_lookup (backend : String → InspectResult)
    (services : List Service) (c : String) :
    snapshotSync backend services c =
      if c ∈ relevantOf services then some (snapshotClassify (backend c))
      else none :=
  snapshotSync_aux backend services (fun _ => none) c

/-- Observable state of the aggregator object relevant to subscription
lifecycle: the two loop fields, the subscriber list (queues modelled by
identifiers), whether the monitor task is live, and whether the loop's
internal EventBus subscription is held (the loop's first action takes
it; its `finally` releases it). -/
structure AggState where
  containerStates : String → Option ServiceState
  lastStatus : Option DeploymentStatus
  subscribers : List Nat
  taskRunning : Bool
  busSubscribed : Bool

/-- Embedding of `subscribe` (lines 87-106) with `_refresh_snapshot`
(lines 108-144) inlined for the sequential call: when `_last_status` is
`None` a snapshot is built and both the table and the tracked status are
installed; the queue is then registered and `_ensure_started` launches
the monitor task.  The third component records whether an inspection
snapshot was performed. -/
def subscribeAgg (services : List Service)
    (backend : String → InspectResult) (st : AggState) (q : Nat) :
    AggState × Option DeploymentStatus × Bool :=
  match st.lastStatus with
  | none =>
    let snap := snapshotSync backend services
    let newStatus := computeDeploymentStatus (relevantOf services) snap
    (⟨snap, some newStatus, st.subscribers ++ [q], true, true⟩,
     some newStatus, true)
  | some s =>
    (⟨st.containerStates, some s, st.subscribers ++ [q], true, true⟩,
     some s, false)

/-- Embedding of `_maybe_stop` (lines 73-85): with no subscribers left, a
live task is cancelled and awaited, upon which the loop's `finally`
releases the EventBus subscription. -/
def maybeStop (st : AggState) : AggState :=
  if st.subscribers.isEmpty then
    if st.taskRunning then
      ⟨st.containerStates, st.lastStatus, st.subscribers, false, false⟩
    else st
  else st

/-- Embedding of `unsubscribe` (lines 180-190): remove the queue if
present (`List.erase` is the Python guarded `list.remove`), then
`_maybe_stop`. -/
def unsubscribeAgg (st : AggState) (q : Nat) : AggState :=
  maybeStop ⟨st.containerStates, st.lastStatus, st.subscribers.erase q,
    st.taskRunning, st.busSubscribed⟩

/-- C4: a subscriber always gets a non-null status and is registered; when
no snapshot exists the call inspects every relevant container (Removed if
absent, Started if running, Stopped otherwise, Error if the inspection
raises), installs the snapshot and returns its aggregate; when a tracked
status exists it is returned with no inspection and an unchanged table. -/
theorem subscribe_snapshot (services : List Service)
    (backend : String → InspectResult) (st : AggState) (q : Nat) :
    (subscribeAgg services backend st q).2.1 ≠ none ∧
    (subscribeAgg services backend st q).1.subscribers =
      st.subscribers ++ [q] ∧
    (st.lastStatus = none →
      (subscribeAgg services backend st q).2.2 = true ∧
      (subscribeAgg services backend st q).2.1 =
        some (computeDeploymentStatus (relevantOf services)
          (snapshotSync backend services)) ∧
      (∀ c ∈ relevantOf services,
        (subscribeAgg services backend st q).1.containerStates c =
          some (snapshotClassify (backend c)) ∧
        (backend c = .absent →
          (subscribeAgg services backend st q).1.containerStates c =
            some .Removed) ∧
        (backend c = .raises →
          (subscribeAgg services backend st q).1.containerStates c =
            some .Error) ∧
        (backend c = .present true →
          (subscribeAgg services backend st q).1.containerStates c =
            some .Started) ∧
        (backend c = .present false →
          (subscribeAgg services backend st q).1.containerStates c =
            some .Stopped))) ∧
    (∀ s, st.lastStatus = some s →
      (subscribeAgg services backend st q).2.2 = false ∧
      (subscribeAgg services backend st q).2.1 = some s ∧
      (subscribeAgg services backend st q).1.containerStates =
        st.containerStates) := by
  rcases hst : st.lastStatus with _ | s0
  · refine ⟨by simp [subscribeAgg, hst], by simp [subscribeAgg, hst],
      fun _ => ⟨by simp [subscribeAgg, hst], by simp [subscribeAgg, hst],
        fun c hc => ?_⟩,
      fun s hs => by simp at hs⟩
    have hl : snapshotSync backend services c =
        some (snapshotClassify (backend c)) := by
      rw [snapshotSync_lookup, if_pos hc]
    have hcs : (subscribeAgg services backend st q).1.containerStates c =
        some (snapshotClassify (backend c)) := by
      simp [subscribeAgg, hst, hl]
    refine ⟨hcs, fun hb => ?_, fun hb => ?_, fun hb => ?_, fun hb => ?_⟩ <;>
      rw [hcs, hb] <;> rfl
  · refine ⟨by simp [subscribeAgg, hst], by simp [subscribeAgg, hst],
      fun hnone => by simp at hnone,
      fun s hs => ?_⟩
    cases Option.some.inj hs
    exact ⟨by simp [subscribeAgg, hst], by simp [subscribeAgg, hst],
      by simp [subscribeAgg, hst]⟩

/-- C4 witness: subscribing with no prior snapshot over a one-service
deployment whose container is running performs the inspection and reports
Running; subscribing again afterwards does not inspect. -/
theorem subscribe_snapshot_witness :
    (subscribeAgg [⟨"svc", some "A"⟩] (fun _ => .present true)
        ⟨fun _ => none, none, [], false, false⟩ 0).2.1 ≠ none ∧
    (subscribeAgg [⟨"svc", some "A"⟩] (fun _ => .present true)
        ⟨fun _ => none, none, [], false, false⟩ 0).2.2 = true ∧
    (subscribeAgg [⟨"svc", some "A"⟩] (fun _ => .present true)
        ⟨fun _ => none, some .Running, [], false, false⟩ 1).2.2 = false :=
  ⟨(subscribe_snapshot [⟨"svc", some "A"⟩] (fun _ => .present true)
      ⟨fun _ => none, none, [], false, false⟩ 0).1,
   ((subscribe_snapshot [⟨"svc", some "A"⟩] (fun _ => .present true)
      ⟨fun _ => none, none, [], false, false⟩ 0).2.2.1 rfl).1,
   ((subscribe_snapshot [⟨"svc", some "A"⟩] (fun _ => .present true)
      ⟨fun _ => none, some .Running, [], false, false⟩ 1).2.2.2
        .Running rfl).1⟩

/-- C5: when removing a queue leaves the subscriber list empty and the
monitor task is live, unsubscribing stops the task and releases the
EventBus subscription while preserving the tracked status; a subsequent
subscribe relaunches the monitor task, and performs no new inspection
when a tracked status exists. -/
theorem last_unsubscribe_stops (services : List Service)
    (backend : String → InspectResult) (st : AggState) (q q2 : Nat)
    (h : st.subscribers.erase q = []) (h2 : st.taskRunning = true) :
    (unsubscribeAgg st q).taskRunning = false ∧
    (unsubscribeAgg st q).busSubscribed = false ∧
    (unsubscribeAgg st q).lastStatus = st.lastStatus ∧
    (subscribeAgg services backend (unsubscribeAgg st q) q2).1.taskRunning =
      true ∧
    (subscribeAgg services backend (unsubscribeAgg st q) q2).1.busSubscribed =
      true ∧
    (∀ s, st.lastStatus = some s →
      (subscribeAgg services backend (unsubscribeAgg st q) q2).2.2 = false ∧
      (subscribeAgg services backend (unsubscribeAgg st q) q2).2.1 =
        some s) := by
  have hu : unsubscribeAgg st q =
      ⟨st.containerStates, st.lastStatus, st.subscribers.erase q,
        false, false⟩ := by
    unfold unsubscribeAgg maybeStop
    simp [h, h2]
  refine ⟨by rw [hu], by rw [hu], by rw [hu], ?_, ?_, fun s hs => ?_⟩
  · rw [hu]
    rcases hst : st.lastStatus with _ | s0 <;> simp [subscribeAgg, hst]
  · rw [hu]
    rcases hst : st.lastStatus with _ | s0 <;> simp [subscribeAgg, hst]
  · rw [hu]
    simp [subscribeAgg, hs]

/-- C5 witness: the stop-and-restart theorem applied to a monitor with a
lone subscriber 7 and tracked status Running. -/
theorem last_unsubscribe_stops_witness :
    (unsubscribeAgg ⟨fun _ => none, some .Running, [7], true, true⟩
        7).taskRunning = false ∧
    (subscribeAgg [] (fun _ => .raises)
        (unsubscribeAgg ⟨fun _ => none, some .Running, [7], true, true⟩ 7)
        9).2.2 = false :=
  ⟨(last_unsubscribe_stops [] (fun _ => .raises)
      ⟨fun _ => none, some .Running, [7], true, true⟩ 7 9 (by decide)
      rfl).1,
   ((last_unsubscribe_stops [] (fun _ => .raises)
      ⟨fun _ => none, some .Running, [7], true, true⟩ 7 9 (by decide)
      rfl).2.2.2.2.2 .Running rfl).1⟩

/-- Outcome of one await of `status_events.get_event` together with the
handling of its result: a delivered event, a raised `CancelledError`, or
any other exception raised while obtaining or processing the event. -/
inductive EventOutcome
  | next (e : ContainerEvent)
  | cancelled
  | failure
deriving DecidableEq, Repr

/-- What one pass of the `while True` body decides: keep looping (after
optionally broadcasting a notification and optionally sleeping an error
backoff), or exit because cancellation was re-raised. -/
inductive IterationResult
  | proceed (broadcast : Option DeploymentStatusEvent)
      (backoffSeconds : Option ℚ)
  | exitCancelled
deriving DecidableEq, Repr

/-- The constructor default of `error_backoff_seconds` (line 34). -/
def errorBackoffSeconds : ℚ := 1 / 4

/-- Embedding of one pass of the inner `try` of `_monitor_loop`
(lines 224-262): a delivered event goes through the usual step; a
`CancelledError` is re-raised and ends the loop; any other exception is
logged, the loop sleeps `_error_backoff_seconds` and continues with
nothing broadcast. -/
def monitorIteration (relevant : List String) (ms : MonitorState) :
    EventOutcome → MonitorState × IterationResult
  | .next e =>
    ((stepMonitor relevant ms e).1,
     .proceed (stepMonitor relevant ms e).2 none)
  | .cancelled => (ms, .exitCancelled)
  | .failure => (ms, .proceed none (some errorBackoffSeconds))

/-- C6: a loop pass exits exactly on cancellation; a contained processing
fault leaves the monitor state untouched, broadcasts nothing to the
subscribers, and schedules the configured error backoff before the loop
continues. -/
theorem loop_error_containment (relevant : List String)
    (ms : MonitorState) (out : EventOutcome) :
    ((monitorIteration relevant ms out).2 = .exitCancelled ↔
      out = .cancelled) ∧
    (out = .failure →
      (monitorIteration relevant ms out).2 =
        .proceed none (some errorBackoffSeconds) ∧
      (monitorIteration relevant ms out).1 = ms) := by
  cases out <;> simp [monitorIteration]

/-- C6 witness: a processing failure on the empty deployment keeps the
loop going with the quarter-second backoff and no broadcast. -/
theorem loop_error_containment_witness :
    (monitorIteration [] ⟨fun _ => none, none⟩ .failure).2 =
      .proceed none (some errorBackoffSeconds) :=
  ((loop_error_containment [] ⟨fun _ => none, none⟩ .failure).2 rfl).1

/-- One SSE subscriber of the monitor: whether its queue can accept a
put within the broadcast timeout, and the events it has received. -/
structure Subscriber where
  accepts : Bool
  queue : List DeploymentStatusEvent
deriving DecidableEq, Repr

/-- The timeout of the `asyncio.wait_for(q.put(event), timeout=0.1)`
broadcast enqueue (line 205), in seconds. -/
def broadcastTimeoutSeconds : ℚ := 1 / 10

/-- Embedding of `_broadcast` (lines 192-209): each subscriber that can
accept within the timeout receives the event appended to its queue; one
that cannot is skipped with a logged warning and kept; the loop over
subscribers always completes. -/
def broadcastEvent (subs : List Subscriber)
    (ev : DeploymentStatusEvent) : List Subscriber :=
  subs.map fun s =>
    if s.accepts then ⟨s.accepts, s.queue ++ [ev]⟩ else s

/-- One pass of the monitor loop body including delivery to the
subscriber queues. -/
def stepMonitorFull (relevant : List String) (ms : MonitorState)
    (subs : List Subscriber) (e : ContainerEvent) :
    MonitorState × List Subscriber :=
  match stepMonitor relevant ms e with
  | (ms2, none) => (ms2, subs)
  | (ms2, some ev) => (ms2, broadcastEvent subs ev)

/-- C7: an event for a container outside the relevant set changes
nothing: state table, tracked status and every subscriber queue are left
as they were, and no notification is broadcast. -/
theorem irrelevant_event_ignored (relevant : List String)
    (ms : MonitorState) (subs : List Subscriber) (e : ContainerEvent)
    (h : e.containerName ∉ relevant) :
    stepMonitorFull relevant ms subs e = (ms, subs) ∧
    (stepMonitor relevant ms e).2 = none := by
  have hs : stepMonitor relevant ms e = (ms, none) := by
    unfold stepMonitor
    simp [h]
  refine ⟨?_, by rw [hs]⟩
  unfold stepMonitorFull
  rw [hs]

/-- C7 witness: the frame theorem applied to an event for a container
that is not part of the one-container deployment. -/
theorem irrelevant_event_ignored_witness :
    stepMonitorFull ["A"] ⟨fun _ => none, some .Running⟩
        [⟨true, []⟩] ⟨"X", .Started⟩ =
      (⟨fun _ => none, some .Running⟩, [⟨true, []⟩]) :=
  (irrelevant_event_ignored ["A"] ⟨fun _ => none, some .Running⟩
    [⟨true, []⟩] ⟨"X", .Started⟩ (by decide)).1

/-- C8: a broadcast enqueue waits at most the 0.1-second timeout; a
subscriber that cannot accept within it misses the event but stays in
the subscriber list, while every accepting subscriber still receives the
event, and the broadcast completes over the whole list. -/
theorem broadcast_timeout_policy (subs : List Subscriber)
    (ev : DeploymentStatusEvent) :
    broadcastTimeoutSeconds = 1 / 10 ∧
    (broadcastEvent subs ev).length = subs.length ∧
    (∀ (i : Nat) (h1 : i < subs.length)
      (h2 : i < (broadcastEvent subs ev).length),
      ((subs.get ⟨i, h1⟩).accepts = false →
        (broadcastEvent subs ev).get ⟨i, h2⟩ = subs.get ⟨i, h1⟩) ∧
      ((subs.get ⟨i, h1⟩).accepts = true →
        (broadcastEvent subs ev).get ⟨i, h2⟩ =
          ⟨true, (subs.get ⟨i, h1⟩).queue ++ [ev]⟩)) := by
  refine ⟨rfl, by simp [broadcastEvent], fun i h1 h2 => ?_⟩
  simp only [List.get_eq_getElem]
  constructor <;> intro ha <;>
    simp only [broadcastEvent, List.getElem_map] <;>
    simp [ha]

/-- C8 witness: the broadcast policy applied to one accepting and one
non-accepting subscriber; the slow one keeps its old queue and its slot. -/
theorem broadcast_timeout_policy_witness :
    (broadcastEvent [⟨true, []⟩, ⟨false, []⟩]
        ⟨.Running, none⟩).length = 2 ∧
    (broadcastEvent [⟨true, []⟩, ⟨false, []⟩] ⟨.Running, none⟩).get
        ⟨1, by decide⟩ = ⟨false, []⟩ :=
  ⟨(broadcast_timeout_policy [⟨true, []⟩, ⟨false, []⟩]
      ⟨.Running, none⟩).2.1,
   ((broadcast_timeout_policy [⟨true, []⟩, ⟨false, []⟩]
      ⟨.Running, none⟩).2.2 1 (by decide) (by decide)).1 rfl⟩

/-- Task lifecycle states (`TaskStatus` enum of `models/task.py`; member
list from the design's task state machine and the members used by
`routers/deployment.py`). -/
inductive TaskStatus
  | Pending
  | Running
  | Completed
  | Failed
deriving DecidableEq, Repr

/-- Stored task record, reduced to the fields the claims concern. -/
structure TaskDetail where
  taskId : String
  taskStatus : TaskStatus
deriving DecidableEq, Repr

/-- Task store of the TaskManager, keyed by task id.  Modelled from the
spec: `services/task_manager.py` is not among the sources; per the
design, `GetTask` returns a snapshot of the record for a known id and a
not-found answer otherwise. -/
abbrev TaskStore := String → Option TaskDetail

/-- Reply of an HTTP handler: a value, or a raised `HTTPException` with
its status code and detail message. -/
inductive HandlerReply (α : Type)
  | ok (value : α)
  | httpError (code : Nat) (detail : String)
deriving DecidableEq, Repr

/-- Embedding of `get_task_status` (routers/deployment.py lines 362-379):
an unknown id raises `HTTPException(404, ...)`, a known one returns the
record; the store is returned alongside to expose that neither path
touches it. -/
def getTaskStatus (store : TaskStore) (id : String) :
    HandlerReply TaskDetail × TaskStore :=
  match store id with
  | none => (.httpError 404 ("Task " ++ id ++ " not found"), store)
  | some t => (.ok t, store)

/-- Embedding of the synchronous guard of `stream_task_progress`
(lines 381-397): the same 404 is raised before any stream is created;
with a known id the SSE stream starts. -/
def streamTaskProgress (store : TaskStore) (id : String) :
    HandlerReply Unit × TaskStore :=
  match store id with
  | none => (.httpError 404 ("Task " ++ id ++ " not found"), store)
  | some _ => (.ok (), store)

/-- C9: for an id with no task record, both the task-status and the
task-stream endpoints answer the immediate caller with HTTP 404 and a
detail message, and the task store is left exactly as it was. -/
theorem unknown_task_not_found (store : TaskStore) (id : String)
    (h : store id = none) :
    getTaskStatus store id =
      (.httpError 404 ("Task " ++ id ++ " not found"), store) ∧
    streamTaskProgress store id =
      (.httpError 404 ("Task " ++ id ++ " not found"), store) := by
  simp [getTaskStatus, streamTaskProgress, h]

/-- C9 witness: the not-found theorem applied to the empty task store and
the id t1. -/
theorem unknown_task_not_found_witness :
    getTaskStatus (fun _ => none) "t1" =
      (.httpError 404 "Task t1 not found", fun _ => none) :=
  (unknown_task_not_found (fun _ => none) "t1" rfl).1

/-- HTTP body of the 202 Accepted answer (`TaskResponse` of
`models/task.py`, fields used by the handlers). -/
structure TaskResponse where
  taskId : String
  status : TaskStatus
deriving DecidableEq, Repr

/-- Modelled from the spec: `TaskManager.create_task`
(services/task_manager.py is not among the sources) allocates the id and
stores a Task record in Pending state before handing the work to the
background execution context. -/
def createTask (store : TaskStore) (id : String) : TaskStore :=
  fun n => if n = id then some ⟨id, .Pending⟩ else store n

/-- Embedding of the five lifecycle handlers `deploy_up`, `deploy_stop`,
`deploy_down`, `deploy_kill`, `deploy_restart` (routers/deployment.py
lines 188-360), identical in this respect: create the task, then answer
202 Accepted with a body hard-coding `status=TaskStatus.RUNNING`. -/
def deployOperation (store : TaskStore) (id : String) :
    TaskStore × Nat × TaskResponse :=
  (createTask store id, 202, ⟨id, .Running⟩)

/-- C10: every lifecycle POST answers 202 with a body whose status is
Running no matter what the store holds, although the record just created
for the task is in Pending state, a different status. -/
theorem accepted_response_reports_running (store : TaskStore)
    (id : String) :
    (deployOperation store id).2.1 = 202 ∧
    (deployOperation store id).2.2 = ⟨id, .Running⟩ ∧
    (deployOperation store id).1 id = some ⟨id, .Pending⟩ ∧
    (deployOperation store id).2.2.status ≠
      (⟨id, TaskStatus.Pending⟩ : TaskDetail).taskStatus := by
  exact ⟨rfl, rfl, by simp [deployOperation, createTask],
    fun hx => TaskStatus.noConfusion hx⟩

/-- C10 witness: the 202-reports-Running theorem applied to the empty
store and the id t9. -/
theorem accepted_response_reports_running_witness :
    (deployOperation (fun _ => none) "t9").2.2 =
      ⟨"t9", TaskStatus.Running⟩ :=
  (accepted_response_reports_running (fun _ => none) "t9").2.1

end BDC
